import Mathlib

/-!
Shallow embedding of the authentication and session-token subsystem of the
nest-js-starter-template repository: the auth service
(`src/auth/auth.service.ts`), the JWT token service (`jwt.service.ts`),
the JWT passport strategy (`jwt.strategy.ts`) and the JWT configuration
(`src/config/configuration.ts`).

Time is modelled as `Nat` (seconds).  A signed JWT is modelled as its
payload together with the secret it was signed with and its expiry; the
signing library's verification succeeds exactly when the secret matches
and the token is not expired.  The relational store (Prisma) is modelled
as lists of user and refresh-token records; `findUnique` / `findFirst`
are `List.find?`, `deleteMany` is a filter.
-/

namespace NestAuth

/-- Role enum from the Prisma schema: USER | ADMIN | MODERATOR. -/
inductive Role where
  | USER
  | ADMIN
  | MODERATOR
deriving DecidableEq, Repr

/-- A User record as stored in the user table.  `password` holds the
bcrypt credential hash. -/
structure User where
  id : String
  email : String
  username : String
  password : String
  firstName : Option String
  lastName : Option String
  role : Role
  isActive : Bool
deriving DecidableEq, Repr

/-- A user with the credential hash stripped, as returned over the API
(the `Omit<User, 'password'>` shape). -/
structure PublicUser where
  id : String
  email : String
  username : String
  firstName : Option String
  lastName : Option String
  role : Role
  isActive : Bool
deriving DecidableEq, Repr

/-- The `const \x7b password: _password, ...userWithoutPassword \x7d = user`
destructuring: strip the credential hash. -/
def stripPassword (u : User) : PublicUser :=
  { id := u.id, email := u.email, username := u.username,
    firstName := u.firstName, lastName := u.lastName,
    role := u.role, isActive := u.isActive }

/-- The identity claim set signed into both token kinds
(`JwtPayload` in jwt.service.ts). -/
structure JwtPayload where
  sub : String
  email : String
  username : String
  role : Role
  iat : Nat
  exp : Nat
deriving DecidableEq, Repr

/-- A signed JWT: its claims plus the secret it was signed with.
Verification against a secret succeeds iff the secrets agree and the
token is unexpired — the ideal-functional model of HMAC signing. -/
structure SignedToken where
  payload : JwtPayload
  secret : String
deriving DecidableEq, Repr

/-- The `TokenPair` shape from jwt.service.ts. -/
structure TokenPair where
  accessToken : SignedToken
  refreshToken : SignedToken
deriving DecidableEq, Repr

/-- A RefreshToken record in the refresh-token table. -/
structure RefreshTokenRecord where
  token : SignedToken
  userId : String
  expiresAt : Nat
deriving DecidableEq, Repr

/-- The relational store visible to the auth subsystem. -/
structure DB where
  users : List User
  refreshTokens : List RefreshTokenRecord
deriving DecidableEq, Repr

/-- The `JwtConfig` shape from configuration.ts: the two secrets are read from the
environment and may be absent; the expirations have defaults (15m / 7d),
modelled as durations in seconds. -/
structure JwtConfig where
  accessSecret : Option String
  refreshSecret : Option String
  accessExpiration : Nat
  refreshExpiration : Nat
deriving DecidableEq, Repr

/-- The error taxonomy raised by the subsystem.  `unauthorized`,
`conflict`, `notFound` are the Nest HTTP exceptions; `configError` is the
plain `Error('JWT ... must be configured')`; `tokenInvalid` is the JWT
library's verification failure. -/
inductive AuthError where
  | unauthorized (msg : String)
  | conflict (msg : String)
  | notFound (msg : String)
  | configError (msg : String)
  | tokenInvalid (msg : String)
deriving DecidableEq, Repr

/-- Ideal functional model of `bcrypt.hash(password, 12)`: deterministic
one-way encoding tagged with the cost factor. -/
def bcryptHash (plaintext : String) : String :=
  "bcrypt12$" ++ plaintext

/-- Ideal functional model of `bcrypt.compare(plaintext, hash)`:
true iff the hash is the hash of the plaintext. -/
def bcryptCompare (plaintext hash : String) : Bool :=
  hash == bcryptHash plaintext

/-- Model of `JwtTokenService.generateTokenPair`: requires both secrets
configured (else throws `Error('JWT secrets must be configured')`);
signs the same claim set with the access secret/expiration and with the
refresh secret/expiration. -/
def generateTokenPair (cfg : JwtConfig) (now : Nat)
    (sub email username : String) (role : Role) :
    Except AuthError TokenPair :=
  match cfg.accessSecret, cfg.refreshSecret with
  | some accessSec, some refreshSec =>
      .ok {
        accessToken :=
          { payload := { sub := sub, email := email, username := username,
                         role := role, iat := now,
                         exp := now + cfg.accessExpiration },
            secret := accessSec },
        refreshToken :=
          { payload := { sub := sub, email := email, username := username,
                         role := role, iat := now,
                         exp := now + cfg.refreshExpiration },
            secret := refreshSec } }
  | _, _ => .error (.configError "JWT secrets must be configured")

/-- Model of `jwtService.verifyAsync(token, \x7b secret \x7d)`: succeeds iff the
token was signed with this secret and is unexpired at `now`. -/
def jwtVerify (secret : String) (now : Nat) (t : SignedToken) :
    Except AuthError JwtPayload :=
  if t.secret == secret && decide (now < t.payload.exp) then
    .ok t.payload
  else
    .error (.tokenInvalid "jwt verification failed")

/-- Model of `JwtTokenService.verifyRefreshToken`: throws a config `Error` when
the refresh secret is absent, else verifies against it. -/
def verifyRefreshToken (cfg : JwtConfig) (now : Nat) (t : SignedToken) :
    Except AuthError JwtPayload :=
  match cfg.refreshSecret with
  | none => .error (.configError "JWT refresh secret must be configured")
  | some sec => jwtVerify sec now t

/-- Model of `JwtTokenService.verifyAccessToken`: throws a config `Error` when
the access secret is absent, else verifies against it. -/
def verifyAccessToken (cfg : JwtConfig) (now : Nat) (t : SignedToken) :
    Except AuthError JwtPayload :=
  match cfg.accessSecret with
  | none => .error (.configError "JWT access secret must be configured")
  | some sec => jwtVerify sec now t

/-- JavaScript `split` on a single separator character: splits at every
occurrence and keeps empty chunks (`''.split(' ') = ['']`,
`'a  b'.split(' ') = ['a','','b']`). -/
def splitOnChar (sep : Char) : List Char → List (List Char)
  | [] => [[]]
  | c :: cs =>
    match splitOnChar sep cs with
    | [] => [[]]
    | r :: rs => if c == sep then [] :: r :: rs else (c :: r) :: rs

/-- Model of `authHeader.split(' ')` from jwt.service.ts. -/
def jsSplitSpace (s : String) : List String :=
  (splitOnChar ' ' s.toList).map String.mk

/-- Model of `JwtTokenService.extractTokenFromHeader`:
`const [type, token] = authHeader.split(' '); return type === 'Bearer' ? token : null`.
Array destructuring reads chunks 0 and 1; a missing chunk is `undefined`,
modelled as `none`. -/
def extractTokenFromHeader (authHeader : String) : Option String :=
  let parts := jsSplitSpace authHeader
  if parts[0]? == some "Bearer" then parts[1]? else none

/-- The `register` / `login` response shape (`AuthResponse`): the user with
the credential hash stripped, plus the token pair. -/
structure AuthResponse where
  user : PublicUser
  tokens : TokenPair
deriving DecidableEq, Repr

/-- The register DTO. -/
structure RegisterDto where
  email : String
  username : String
  password : String
  firstName : Option String
  lastName : Option String
deriving DecidableEq, Repr

/-- Seven days in seconds: the hard-coded lifetime in
`AuthService.storeRefreshToken` (`expiresAt.setDate(expiresAt.getDate() + 7)`). -/
def sevenDays : Nat := 7 * 24 * 60 * 60

/-- Model of `AuthService.storeRefreshToken`: persist a refresh-token record whose
`expiresAt` is seven days from now (hard-coded, not read from config). -/
def storeRefreshToken (db : DB) (userId : String) (token : SignedToken)
    (now : Nat) : DB :=
  { db with refreshTokens :=
      db.refreshTokens ++ [{ token := token, userId := userId,
                             expiresAt := now + sevenDays }] }

/-- Model of `prisma.user.findFirst(\x7b where: \x7b OR: [\x7b email \x7d, \x7b username \x7d] \x7d \x7d)`. -/
def findUserByEmailOrUsername (db : DB) (email username : String) :
    Option User :=
  db.users.find? (fun u => u.email == email || u.username == username)

/-- Model of `prisma.user.findUnique(\x7b where: \x7b email \x7d \x7d)`. -/
def findUserByEmail (db : DB) (email : String) : Option User :=
  db.users.find? (fun u => u.email == email)

/-- Model of `prisma.user.findUnique(\x7b where: \x7b id \x7d \x7d)`. -/
def findUserById (db : DB) (id : String) : Option User :=
  db.users.find? (fun u => u.id == id)

/-- Model of `prisma.refreshToken.findUnique(\x7b where: \x7b token \x7d \x7d)`. -/
def findRefreshTokenRecord (db : DB) (token : SignedToken) :
    Option RefreshTokenRecord :=
  db.refreshTokens.find? (fun r => r.token == token)

/-- Model of `AuthService.register`: conflict when a user with the same email OR
username exists; otherwise hash the password, create the user (role USER,
isActive true — the schema defaults), issue a token pair from the new
user's claims, persist the refresh token, and return the user without the
hash plus the tokens.  `newId` models the store-assigned identifier. -/
def register (cfg : JwtConfig) (db : DB) (now : Nat) (newId : String)
    (dto : RegisterDto) : Except AuthError (AuthResponse × DB) :=
  match findUserByEmailOrUsername db dto.email dto.username with
  | some _ =>
      .error (.conflict "User with this email or username already exists")
  | none =>
      let user : User :=
        { id := newId, email := dto.email, username := dto.username,
          password := bcryptHash dto.password,
          firstName := dto.firstName, lastName := dto.lastName,
          role := Role.USER, isActive := true }
      let db₁ : DB := { db with users := db.users ++ [user] }
      match generateTokenPair cfg now user.id user.email user.username
          user.role with
      | .error e => .error e
      | .ok tokens =>
          let db₂ := storeRefreshToken db₁ user.id tokens.refreshToken now
          .ok ({ user := stripPassword user, tokens := tokens }, db₂)

/-- Model of `AuthService.login`: unauthorized when no user with the email, when
the user is inactive, or when the password does not verify; otherwise
issue a token pair, persist the refresh token, and return the user
without the hash plus the tokens. -/
def login (cfg : JwtConfig) (db : DB) (now : Nat)
    (email password : String) : Except AuthError (AuthResponse × DB) :=
  match findUserByEmail db email with
  | none => .error (.unauthorized "Invalid credentials")
  | some user =>
      if !user.isActive then
        .error (.unauthorized "Account is disabled")
      else if !bcryptCompare password user.password then
        .error (.unauthorized "Invalid credentials")
      else
        match generateTokenPair cfg now user.id user.email user.username
            user.role with
        | .error e => .error e
        | .ok tokens =>
            let db₁ := storeRefreshToken db user.id tokens.refreshToken now
            .ok ({ user := stripPassword user, tokens := tokens }, db₁)

/-- The body of the `try` block of `AuthService.refreshTokens`: verify the
token against the refresh secret, look up the record (with its owning
user — modelled by a user-directory lookup on the record's `userId`,
which the foreign key makes total in the real store), reject absent or
expired records and inactive owners, issue a new pair from the owner's
current claims, delete the presented record and persist the new one. -/
def refreshTokensBody (cfg : JwtConfig) (db : DB) (now : Nat)
    (refreshToken : SignedToken) : Except AuthError (TokenPair × DB) :=
  match verifyRefreshToken cfg now refreshToken with
  | .error e => .error e
  | .ok _ =>
      match findRefreshTokenRecord db refreshToken with
      | none => .error (.unauthorized "Invalid or expired refresh token")
      | some stored =>
          if decide (stored.expiresAt < now) then
            .error (.unauthorized "Invalid or expired refresh token")
          else
            match findUserById db stored.userId with
            | none => .error (.tokenInvalid "included relation missing")
            | some user =>
                if !user.isActive then
                  .error (.unauthorized "Account is disabled")
                else
                  match generateTokenPair cfg now user.id user.email
                      user.username user.role with
                  | .error e => .error e
                  | .ok tokens =>
                      let db₁ : DB :=
                        { db with refreshTokens := db.refreshTokens.filter (fun r => !(r.token == refreshToken)) }
                      let db₂ :=
                        storeRefreshToken db₁ user.id tokens.refreshToken now
                      .ok (tokens, db₂)

/-- Model of `AuthService.refreshTokens`: the whole body runs in a `try` whose
`catch` rethrows every failure as
`UnauthorizedException('Invalid refresh token')`. -/
def refreshTokens (cfg : JwtConfig) (db : DB) (now : Nat)
    (refreshToken : SignedToken) : Except AuthError (TokenPair × DB) :=
  match refreshTokensBody cfg db now refreshToken with
  | .ok x => .ok x
  | .error _ => .error (.unauthorized "Invalid refresh token")

/-- Model of `AuthService.logout`: `deleteMany(\x7b where: \x7b token \x7d \x7d)` —
remove the matching record; absence is not an error. -/
def logout (db : DB) (refreshToken : SignedToken) : DB :=
  { db with refreshTokens :=
      db.refreshTokens.filter (fun r => !(r.token == refreshToken)) }

/-- Model of `AuthService.logoutAll`: `deleteMany(\x7b where: \x7b userId \x7d \x7d)` —
remove every record owned by the user; idempotent. -/
def logoutAll (db : DB) (userId : String) : DB :=
  { db with refreshTokens :=
      db.refreshTokens.filter (fun r => !(r.userId == userId)) }

/-- Model of `AuthService.getUserById`: lookup, stripping the credential hash. -/
def getUserById (db : DB) (id : String) : Option PublicUser :=
  (findUserById db id).map stripPassword

/-- The `JwtStrategy` constructor: runs at process start; throws
`Error('JWT access secret must be configured')` when the access secret is
absent, else registers the secret for per-request verification. -/
def jwtStrategyInit (cfg : JwtConfig) : Except AuthError String :=
  match cfg.accessSecret with
  | none => .error (.configError "JWT access secret must be configured")
  | some sec => .ok sec

/-- Model of `JwtStrategy.validate`: after signature/expiry verification, look the
subject up in the user directory and reject missing or inactive users. -/
def jwtStrategyValidate (db : DB) (payload : JwtPayload) :
    Except AuthError PublicUser :=
  match getUserById db payload.sub with
  | none => .error (.unauthorized "User not found or inactive")
  | some user =>
      if !user.isActive then
        .error (.unauthorized "User not found or inactive")
      else
        .ok user

/-- The per-request authentication check (JwtAuthGuard + JwtStrategy):
passport verifies the bearer token against the registered access secret
(signature and expiry, `ignoreExpiration: false`) and only then calls
`validate`, which re-checks existence and activity in the store. -/
def authGuardCheck (accessSecret : String) (db : DB) (now : Nat)
    (token : SignedToken) : Except AuthError PublicUser :=
  match jwtVerify accessSecret now token with
  | .error _ => .error (.unauthorized "Unauthorized")
  | .ok payload => jwtStrategyValidate db payload

/-- Boolean precondition of `login`: the user exists, is active, and the
password verifies against the stored hash. -/
def loginPrecond (db : DB) (email password : String) : Bool :=
  match findUserByEmail db email with
  | none => false
  | some u => u.isActive && bcryptCompare password u.password

/-- Boolean form of the combined registration existence query. -/
def hasDuplicateUser (db : DB) (email username : String) : Bool :=
  (findUserByEmailOrUsername db email username).isSome

/-! Concrete fixtures used by witness and counterexample theorems. -/

/-- A configuration with both secrets present and the default
expirations (15 minutes, 7 days). -/
def sampleCfg : JwtConfig :=
  { accessSecret := some "acc", refreshSecret := some "ref",
    accessExpiration := 900, refreshExpiration := 604800 }

/-- A configuration whose refresh lifetime was changed to one hour. -/
def cfgShort : JwtConfig :=
  { accessSecret := some "acc", refreshSecret := some "ref",
    accessExpiration := 900, refreshExpiration := 3600 }

/-- A configuration with the access secret set but no refresh secret. -/
def cfgNoRefresh : JwtConfig :=
  { accessSecret := some "acc", refreshSecret := none,
    accessExpiration := 900, refreshExpiration := 604800 }

/-- A configuration with no access secret. -/
def cfgNone : JwtConfig :=
  { accessSecret := none, refreshSecret := some "ref",
    accessExpiration := 900, refreshExpiration := 604800 }

/-- An active registered user. -/
def alice : User :=
  { id := "u1", email := "a@x.com", username := "alice",
    password := bcryptHash "Password1A",
    firstName := none, lastName := none,
    role := Role.USER, isActive := true }

/-- A deactivated user. -/
def bob : User :=
  { id := "u2", email := "b@x.com", username := "bob",
    password := bcryptHash "Password1B",
    firstName := none, lastName := none,
    role := Role.USER, isActive := false }

/-- A store holding only `alice` and no refresh tokens. -/
def sampleDB : DB := { users := [alice], refreshTokens := [] }

/-- A refresh token issued to alice at time 50, signed with the refresh
secret, expiring at time 1000000. -/
def R1c : SignedToken :=
  { payload := { sub := "u1", email := "a@x.com", username := "alice",
                 role := Role.USER, iat := 50, exp := 1000000 },
    secret := "ref" }

/-- The persisted record for `R1c`. -/
def rotRec : RefreshTokenRecord :=
  { token := R1c, userId := "u1", expiresAt := 700000 }

/-- A store holding `alice` and the record for `R1c`. -/
def dbRot : DB := { users := [alice], refreshTokens := [rotRec] }

/-- A store holding the deactivated `bob`. -/
def dbBob : DB := { users := [bob], refreshTokens := [] }

/-- A still-unexpired access token for the deactivated `bob`, correctly
signed with the access secret. -/
def tokBob : SignedToken :=
  { payload := { sub := "u2", email := "b@x.com", username := "bob",
                 role := Role.USER, iat := 0, exp := 900 },
    secret := "acc" }

/-! ## Theorems -/

/-- C9: `extractTokenFromHeader` returns a token only when the part of
the header before the first space is exactly the case-sensitive string
"Bearer"; for any other scheme it returns `none` (an absence value — the
function is total and never raises). -/
theorem extractTokenFromHeader_bearer_only (h : String) :
    ((jsSplitSpace h)[0]? ≠ some "Bearer" → extractTokenFromHeader h = none)
    ∧ (∀ t, extractTokenFromHeader h = some t →
        (jsSplitSpace h)[0]? = some "Bearer"
        ∧ (jsSplitSpace h)[1]? = some t) := by
  unfold extractTokenFromHeader
  by_cases hb : (jsSplitSpace h)[0]? = some "Bearer"
  · constructor
    · intro hne
      exact absurd hb hne
    · intro t ht
      simp [hb] at ht
      exact ⟨hb, ht⟩
  · constructor
    · intro _
      simp [hb]
    · intro t ht
      simp [hb] at ht

/-- C9 witness: a lowercase scheme is rejected with absence. -/
theorem extractTokenFromHeader_bearer_only_witness :
    extractTokenFromHeader "bearer tok123" = none :=
  (extractTokenFromHeader_bearer_only "bearer tok123").1 (by decide)

/-- C10: frame property of `logout` and `logoutAll`: `logout db t`
leaves the user table unchanged and keeps exactly the refresh-token
records whose token differs from `t`; `logoutAll db uid` leaves the user
table unchanged and keeps exactly the records not owned by `uid`.
Both are total functions — no error is raised when nothing matches. -/
theorem logout_logoutAll_frame (db : DB) (t : SignedToken) (uid : String) :
    ((logout db t).users = db.users)
    ∧ (∀ r : RefreshTokenRecord,
        r ∈ (logout db t).refreshTokens ↔
          r ∈ db.refreshTokens ∧ r.token ≠ t)
    ∧ ((logoutAll db uid).users = db.users)
    ∧ (∀ r : RefreshTokenRecord,
        r ∈ (logoutAll db uid).refreshTokens ↔
          r ∈ db.refreshTokens ∧ r.userId ≠ uid) := by
  refine ⟨rfl, ?_, rfl, ?_⟩ <;> intro r <;>
    simp [logout, logoutAll, List.mem_filter]

/-- C10 witness: logging out `R1c` removes its record and keeps the user
table; `logoutAll` for another user keeps the record. -/
theorem logout_logoutAll_frame_witness :
    ((logout dbRot R1c).users = dbRot.users
      ∧ ¬ (rotRec ∈ (logout dbRot R1c).refreshTokens))
    ∧ (rotRec ∈ (logoutAll dbRot "zz").refreshTokens) :=
  ⟨⟨(logout_logoutAll_frame dbRot R1c "zz").1,
    fun hmem =>
      absurd (((logout_logoutAll_frame dbRot R1c "zz").2.1 rotRec).1 hmem).2
        (by decide)⟩,
   ((logout_logoutAll_frame dbRot R1c "zz").2.2.2 rotRec).2
     ⟨by decide, by decide⟩⟩

/-- C7: the two failing login runs — unknown email versus wrong password
for an existing active user — produce the identical error kind and the
identical externally observable message, so the caller cannot
distinguish them. -/
theorem login_indistinguishable (cfg : JwtConfig) (db : DB) (now : Nat)
    (e₁ p₁ e₂ p₂ : String) (u : User)
    (h₁ : findUserByEmail db e₁ = none)
    (h₂ : findUserByEmail db e₂ = some u)
    (hact : u.isActive = true)
    (hpw : bcryptCompare p₂ u.password = false) :
    login cfg db now e₁ p₁ = .error (.unauthorized "Invalid credentials")
    ∧ login cfg db now e₂ p₂ = .error (.unauthorized "Invalid credentials")
    ∧ login cfg db now e₁ p₁ = login cfg db now e₂ p₂ := by
  have hrun₁ : login cfg db now e₁ p₁
      = .error (.unauthorized "Invalid credentials") := by
    unfold login
    rw [h₁]
  have hrun₂ : login cfg db now e₂ p₂
      = .error (.unauthorized "Invalid credentials") := by
    unfold login
    rw [h₂]
    simp [hact, hpw]
  exact ⟨hrun₁, hrun₂, hrun₁.trans hrun₂.symm⟩

/-- C7 witness: with only alice in the store, a login for an unknown
email and a login for alice with a wrong password yield the same error. -/
theorem login_indistinguishable_witness :
    login sampleCfg sampleDB 0 "nobody@x.com" "whatever"
      = .error (.unauthorized "Invalid credentials")
    ∧ login sampleCfg sampleDB 0 "a@x.com" "WrongPass1"
      = .error (.unauthorized "Invalid credentials")
    ∧ login sampleCfg sampleDB 0 "nobody@x.com" "whatever"
      = login sampleCfg sampleDB 0 "a@x.com" "WrongPass1" :=
  login_indistinguishable sampleCfg sampleDB 0 "nobody@x.com" "whatever"
    "a@x.com" "WrongPass1" alice (by decide) (by decide) (by decide)
    (by decide)

/-- C3: with the signing secrets configured, `login` succeeds exactly
when a user with the email exists, is active, and the password verifies
against the stored hash; on success it returns that user with the
credential hash stripped and appends one refresh-token record for the
new refresh token; every failure is an `unauthorized` error. -/
theorem login_spec (cfg : JwtConfig) (db : DB) (now : Nat)
    (email password : String)
    (hA : cfg.accessSecret.isSome = true)
    (hR : cfg.refreshSecret.isSome = true) :
    ((login cfg db now email password).isOk = loginPrecond db email password)
    ∧ (loginPrecond db email password = true ↔
        ∃ u, findUserByEmail db email = some u ∧ u.isActive = true
          ∧ bcryptCompare password u.password = true)
    ∧ (∀ e, login cfg db now email password = .error e →
        ∃ m, e = AuthError.unauthorized m)
    ∧ (∀ resp db', login cfg db now email password = .ok (resp, db') →
        ∃ u, findUserByEmail db email = some u
          ∧ u.isActive = true
          ∧ bcryptCompare password u.password = true
          ∧ resp.user = stripPassword u
          ∧ db'.users = db.users
          ∧ db'.refreshTokens = db.refreshTokens ++
              [{ token := resp.tokens.refreshToken, userId := u.id,
                 expiresAt := now + sevenDays }]) := by
  obtain ⟨aSec, hA'⟩ := Option.isSome_iff_exists.mp hA
  obtain ⟨rSec, hR'⟩ := Option.isSome_iff_exists.mp hR
  cases hu : findUserByEmail db email with
  | none =>
      have hrun : login cfg db now email password
          = .error (.unauthorized "Invalid credentials") := by
        unfold login
        rw [hu]
      refine ⟨?_, ?_, ?_, ?_⟩
      · rw [hrun]
        unfold loginPrecond
        rw [hu]
        rfl
      · unfold loginPrecond
        rw [hu]
        simp
      · intro e he
        rw [hrun] at he
        exact ⟨"Invalid credentials", (Except.error.injEq _ _).mp he.symm⟩
      · intro resp db' h
        rw [hrun] at h
        exact absurd h (by simp)
  | some u =>
      by_cases hact : u.isActive = true
      · by_cases hpw : bcryptCompare password u.password = true
        · have hrun : login cfg db now email password
              = .ok ({ user := stripPassword u,
                       tokens :=
                         { accessToken :=
                             { payload := { sub := u.id, email := u.email,
                                            username := u.username,
                                            role := u.role, iat := now,
                                            exp := now + cfg.accessExpiration },
                               secret := aSec },
                           refreshToken :=
                             { payload := { sub := u.id, email := u.email,
                                            username := u.username,
                                            role := u.role, iat := now,
                                            exp := now + cfg.refreshExpiration },
                               secret := rSec } } },
                     { db with refreshTokens := db.refreshTokens ++
                         [{ token :=
                              { payload := { sub := u.id, email := u.email,
                                             username := u.username,
                                             role := u.role, iat := now,
                                             exp := now + cfg.refreshExpiration },
                                secret := rSec },
                            userId := u.id,
                            expiresAt := now + sevenDays }] }) := by
            unfold login generateTokenPair storeRefreshToken
            rw [hu, hA', hR']
            simp [hact, hpw]
          refine ⟨?_, ?_, ?_, ?_⟩
          · rw [hrun]
            unfold loginPrecond
            rw [hu]
            simp [hact, hpw, Except.isOk, Except.toBool]
          · unfold loginPrecond
            rw [hu]
            simp [hact, hpw]
          · intro e he
            rw [hrun] at he
            exact absurd he (by simp)
          · intro resp db' h
            rw [hrun] at h
            simp only [Except.ok.injEq, Prod.mk.injEq] at h
            obtain ⟨hresp, hdb⟩ := h
            refine ⟨u, rfl, hact, hpw, ?_, ?_, ?_⟩
            · rw [← hresp]
            · rw [← hdb]
            · rw [← hdb, ← hresp]
        · have hrun : login cfg db now email password
              = .error (.unauthorized "Invalid credentials") := by
            unfold login
            rw [hu]
            simp [hact, hpw]
          refine ⟨?_, ?_, ?_, ?_⟩
          · rw [hrun]
            unfold loginPrecond
            rw [hu]
            simp [hpw, Except.isOk, Except.toBool]
          · unfold loginPrecond
            rw [hu]
            simp [hpw]
          · intro e he
            rw [hrun] at he
            exact ⟨"Invalid credentials", (Except.error.injEq _ _).mp he.symm⟩
          · intro resp db' h
            rw [hrun] at h
            exact absurd h (by simp)
      · have hrun : login cfg db now email password
            = .error (.unauthorized "Account is disabled") := by
          unfold login
          rw [hu]
          simp [hact]
        refine ⟨?_, ?_, ?_, ?_⟩
        · rw [hrun]
          unfold loginPrecond
          rw [hu]
          simp [hact, Except.isOk, Except.toBool]
        · unfold loginPrecond
          rw [hu]
          simp [hact]
        · intro e he
          rw [hrun] at he
          exact ⟨"Account is disabled", (Except.error.injEq _ _).mp he.symm⟩
        · intro resp db' h
          rw [hrun] at h
          exact absurd h (by simp)

/-- C3 witness: alice's correct login succeeds and the precondition
equivalence is inhabited. -/
theorem login_spec_witness :
    (login sampleCfg sampleDB 0 "a@x.com" "Password1A").isOk
      = loginPrecond sampleDB "a@x.com" "Password1A" :=
  (login_spec sampleCfg sampleDB 0 "a@x.com" "Password1A" rfl rfl).1

/-- C5: with the signing secrets configured, `register` fails — and fails
with `Conflict` — exactly when the single combined existence query finds
a user with the same email or the same username; otherwise it creates
the user (role USER, active, hashed password), returns it with the
credential hash stripped, and appends one refresh-token record for the
new refresh token. -/
theorem register_spec (cfg : JwtConfig) (db : DB) (now : Nat)
    (newId : String) (dto : RegisterDto)
    (hA : cfg.accessSecret.isSome = true)
    (hR : cfg.refreshSecret.isSome = true) :
    (hasDuplicateUser db dto.email dto.username = true ↔
      ∃ u, u ∈ db.users ∧ (u.email = dto.email ∨ u.username = dto.username))
    ∧ ((register cfg db now newId dto).isOk
        = !hasDuplicateUser db dto.email dto.username)
    ∧ (∀ e, register cfg db now newId dto = .error e →
        e = .conflict "User with this email or username already exists")
    ∧ (∀ resp db', register cfg db now newId dto = .ok (resp, db') →
        resp.user = stripPassword
          { id := newId, email := dto.email, username := dto.username,
            password := bcryptHash dto.password,
            firstName := dto.firstName, lastName := dto.lastName,
            role := Role.USER, isActive := true }
        ∧ db'.users = db.users ++
            [{ id := newId, email := dto.email, username := dto.username,
               password := bcryptHash dto.password,
               firstName := dto.firstName, lastName := dto.lastName,
               role := Role.USER, isActive := true }]
        ∧ db'.refreshTokens = db.refreshTokens ++
            [{ token := resp.tokens.refreshToken, userId := newId,
               expiresAt := now + sevenDays }]) := by
  obtain ⟨aSec, hA'⟩ := Option.isSome_iff_exists.mp hA
  obtain ⟨rSec, hR'⟩ := Option.isSome_iff_exists.mp hR
  have hdup : hasDuplicateUser db dto.email dto.username = true ↔
      ∃ u, u ∈ db.users ∧ (u.email = dto.email ∨ u.username = dto.username) := by
    unfold hasDuplicateUser findUserByEmailOrUsername
    simp [List.find?_isSome]
  refine ⟨hdup, ?_⟩
  cases hd : findUserByEmailOrUsername db dto.email dto.username with
  | some u =>
      have hrun : register cfg db now newId dto
          = .error (.conflict "User with this email or username already exists") := by
        unfold register
        rw [hd]
      have hdup' : hasDuplicateUser db dto.email dto.username = true := by
        unfold hasDuplicateUser
        rw [hd]
        rfl
      refine ⟨?_, ?_, ?_⟩
      · rw [hrun, hdup']
        rfl
      · intro e he
        rw [hrun] at he
        exact (Except.error.injEq _ _).mp he.symm
      · intro resp db' h
        rw [hrun] at h
        exact absurd h (by simp)
  | none =>
      have hrun : register cfg db now newId dto
          = .ok ({ user := stripPassword
                     { id := newId, email := dto.email,
                       username := dto.username,
                       password := bcryptHash dto.password,
                       firstName := dto.firstName, lastName := dto.lastName,
                       role := Role.USER, isActive := true },
                   tokens :=
                     { accessToken :=
                         { payload := { sub := newId, email := dto.email,
                                        username := dto.username,
                                        role := Role.USER, iat := now,
                                        exp := now + cfg.accessExpiration },
                           secret := aSec },
                       refreshToken :=
                         { payload := { sub := newId, email := dto.email,
                                        username := dto.username,
                                        role := Role.USER, iat := now,
                                        exp := now + cfg.refreshExpiration },
                           secret := rSec } } },
                 { users := db.users ++
                     [{ id := newId, email := dto.email,
                        username := dto.username,
                        password := bcryptHash dto.password,
                        firstName := dto.firstName, lastName := dto.lastName,
                        role := Role.USER, isActive := true }],
                   refreshTokens := db.refreshTokens ++
                     [{ token :=
                          { payload := { sub := newId, email := dto.email,
                                         username := dto.username,
                                         role := Role.USER, iat := now,
                                         exp := now + cfg.refreshExpiration },
                            secret := rSec },
                        userId := newId,
                        expiresAt := now + sevenDays }] }) := by
        unfold register generateTokenPair storeRefreshToken
        rw [hd, hA', hR']
      have hdup' : hasDuplicateUser db dto.email dto.username = false := by
        unfold hasDuplicateUser
        rw [hd]
        rfl
      refine ⟨?_, ?_, ?_⟩
      · rw [hrun, hdup']
        rfl
      · intro e he
        rw [hrun] at he
        exact absurd he (by simp)
      · intro resp db' h
        rw [hrun] at h
        simp only [Except.ok.injEq, Prod.mk.injEq] at h
        obtain ⟨hresp, hdb⟩ := h
        refine ⟨?_, ?_, ?_⟩
        · rw [← hresp]
        · rw [← hdb]
        · rw [← hdb, ← hresp]

/-- C5 witness: registering a fresh email/username against the sample
store succeeds, matching the duplicate query's negation. -/
theorem register_spec_witness :
    (register sampleCfg sampleDB 0 "u9"
        { email := "c@x.com", username := "carol",
          password := "Password1C", firstName := none,
          lastName := none }).isOk
      = !hasDuplicateUser sampleDB "c@x.com" "carol" :=
  (register_spec sampleCfg sampleDB 0 "u9"
    { email := "c@x.com", username := "carol", password := "Password1C",
      firstName := none, lastName := none } rfl rfl).2.1

/-- C2: with the access secret configured, `refreshTokens` succeeds
exactly when the presented token verifies against the refresh secret, a
record for it exists in the store, the record's `expiresAt` has not
passed, and the owning user is active; and every failure — whatever the
underlying cause, codec, store, or configuration — surfaces as the one
uniform `Unauthorized` error. -/
theorem refreshTokens_spec (cfg : JwtConfig) (db : DB) (now : Nat)
    (t : SignedToken)
    (hA : cfg.accessSecret.isSome = true) :
    ((refreshTokens cfg db now t).isOk = true ↔
      ((verifyRefreshToken cfg now t).isOk = true
        ∧ ∃ r, findRefreshTokenRecord db t = some r
            ∧ ¬ (r.expiresAt < now)
            ∧ ∃ u, findUserById db r.userId = some u ∧ u.isActive = true))
    ∧ (∀ e, refreshTokens cfg db now t = .error e →
        e = .unauthorized "Invalid refresh token") := by
  obtain ⟨aSec, hA'⟩ := Option.isSome_iff_exists.mp hA
  have huniform : ∀ e, refreshTokens cfg db now t = .error e →
      e = .unauthorized "Invalid refresh token" := by
    intro e he
    unfold refreshTokens at he
    cases hb : refreshTokensBody cfg db now t with
    | ok x => rw [hb] at he; exact absurd he (by simp)
    | error e' =>
        rw [hb] at he
        exact ((Except.error.injEq _ _).mp he).symm
  refine ⟨?_, huniform⟩
  cases hrs : cfg.refreshSecret with
  | none =>
      have hv : verifyRefreshToken cfg now t
          = .error (.configError "JWT refresh secret must be configured") := by
        unfold verifyRefreshToken
        rw [hrs]
      have hbody : refreshTokensBody cfg db now t
          = .error (.configError "JWT refresh secret must be configured") := by
        unfold refreshTokensBody
        rw [hv]
      have hres : refreshTokens cfg db now t
          = .error (.unauthorized "Invalid refresh token") := by
        unfold refreshTokens
        rw [hbody]
      rw [hres, hv]
      simp [Except.isOk, Except.toBool]
  | some rSec =>
      cases hvc : jwtVerify rSec now t with
      | error ev =>
          have hv : verifyRefreshToken cfg now t = .error ev := by
            unfold verifyRefreshToken
            rw [hrs]
            exact hvc
          have hbody : refreshTokensBody cfg db now t = .error ev := by
            unfold refreshTokensBody
            rw [hv]
          have hres : refreshTokens cfg db now t
              = .error (.unauthorized "Invalid refresh token") := by
            unfold refreshTokens
            rw [hbody]
          rw [hres, hv]
          simp [Except.isOk, Except.toBool]
      | ok pl =>
          have hv : verifyRefreshToken cfg now t = .ok pl := by
            unfold verifyRefreshToken
            rw [hrs]
            exact hvc
          rw [hv]
          cases hrec : findRefreshTokenRecord db t with
          | none =>
              have hbody : refreshTokensBody cfg db now t
                  = .error (.unauthorized "Invalid or expired refresh token") := by
                unfold refreshTokensBody
                rw [hv, hrec]
              have hres : refreshTokens cfg db now t
                  = .error (.unauthorized "Invalid refresh token") := by
                unfold refreshTokens
                rw [hbody]
              rw [hres]
              simp [Except.isOk, Except.toBool]
          | some r =>
              by_cases hexp : r.expiresAt < now
              · have hbody : refreshTokensBody cfg db now t
                    = .error (.unauthorized "Invalid or expired refresh token") := by
                  unfold refreshTokensBody
                  rw [hv, hrec]
                  simp [hexp]
                have hres : refreshTokens cfg db now t
                    = .error (.unauthorized "Invalid refresh token") := by
                  unfold refreshTokens
                  rw [hbody]
                rw [hres]
                simp [Except.isOk, Except.toBool, hexp]
              · cases huu : findUserById db r.userId with
                | none =>
                    have hbody : refreshTokensBody cfg db now t
                        = .error (.tokenInvalid "included relation missing") := by
                      unfold refreshTokensBody
                      rw [hv, hrec]
                      simp [hexp, huu]
                    have hres : refreshTokens cfg db now t
                        = .error (.unauthorized "Invalid refresh token") := by
                      unfold refreshTokens
                      rw [hbody]
                    rw [hres]
                    simp [Except.isOk, Except.toBool, huu]
                | some u =>
                    by_cases hact : u.isActive = true
                    · have hgen : generateTokenPair cfg now u.id u.email
                          u.username u.role
                          = .ok { accessToken :=
                                    { payload := { sub := u.id, email := u.email,
                                                   username := u.username,
                                                   role := u.role, iat := now,
                                                   exp := now + cfg.accessExpiration },
                                      secret := aSec },
                                  refreshToken :=
                                    { payload := { sub := u.id, email := u.email,
                                                   username := u.username,
                                                   role := u.role, iat := now,
                                                   exp := now + cfg.refreshExpiration },
                                      secret := rSec } } := by
                        unfold generateTokenPair
                        rw [hA', hrs]
                      have hbody : (refreshTokensBody cfg db now t).isOk = true := by
                        unfold refreshTokensBody
                        rw [hv, hrec]
                        simp [hexp, huu, hact, hgen, Except.isOk, Except.toBool]
                      have hres : (refreshTokens cfg db now t).isOk = true := by
                        unfold refreshTokens
                        cases hb : refreshTokensBody cfg db now t with
                        | ok x => simp [Except.isOk, Except.toBool]
                        | error e' => rw [hb] at hbody; exact absurd hbody (by simp [Except.isOk, Except.toBool])
                      rw [hres]
                      simp [Except.isOk, Except.toBool, huu, hact, hexp]
                      exact Nat.le_of_not_lt hexp
                    · have hbody : refreshTokensBody cfg db now t
                          = .error (.unauthorized "Account is disabled") := by
                        unfold refreshTokensBody
                        rw [hv, hrec]
                        simp [hexp, huu, hact]
                      have hres : refreshTokens cfg db now t
                          = .error (.unauthorized "Invalid refresh token") := by
                        unfold refreshTokens
                        rw [hbody]
                      rw [hres]
                      simp [Except.isOk, Except.toBool, huu, hact, hexp]

/-- C2 witness: in the rotation fixture the presented token verifies,
its record is present and unexpired, and alice is active, so the
equivalence yields success. -/
theorem refreshTokens_spec_witness :
    (refreshTokens sampleCfg dbRot 100 R1c).isOk = true :=
  (refreshTokens_spec sampleCfg dbRot 100 R1c rfl).1.mpr
    ⟨by decide, rotRec, by decide, by decide, alice, by decide, by decide⟩

/-- C4: with the strategy initialised from the configured access secret,
the per-request authentication check fails — and only fails — when the
bearer token does not verify (wrong secret or expired), or the subject
no longer exists in the user directory, or the subject's `isActive` flag
is false; every such failure is `Unauthorized`.  Existence and activity
are re-checked against the store on each request, so a still-valid token
of a deactivated user is rejected. -/
theorem authGuard_spec (cfg : JwtConfig) (db : DB) (now : Nat)
    (token : SignedToken) (sec : String)
    (hInit : jwtStrategyInit cfg = .ok sec) :
    ((authGuardCheck sec db now token).isOk = false ↔
      ((jwtVerify sec now token).isOk = false
        ∨ getUserById db token.payload.sub = none
        ∨ ∃ pu, getUserById db token.payload.sub = some pu
            ∧ pu.isActive = false))
    ∧ (∀ e, authGuardCheck sec db now token = .error e →
        ∃ m, e = AuthError.unauthorized m) := by
  by_cases hc : (token.secret == sec && decide (now < token.payload.exp)) = true
  · have hv : jwtVerify sec now token = .ok token.payload := by
      unfold jwtVerify
      rw [hc]
      exact if_pos rfl
    cases hu : getUserById db token.payload.sub with
    | none =>
        have hrun : authGuardCheck sec db now token
            = .error (.unauthorized "User not found or inactive") := by
          unfold authGuardCheck jwtStrategyValidate
          rw [hv]
          simp [hu]
        refine ⟨?_, ?_⟩
        · rw [hrun, hv]
          simp [Except.isOk, Except.toBool]
        · intro e he
          rw [hrun] at he
          exact ⟨"User not found or inactive",
            (Except.error.injEq _ _).mp he.symm⟩
    | some pu =>
        by_cases hact : pu.isActive = true
        · have hrun : authGuardCheck sec db now token = .ok pu := by
            unfold authGuardCheck jwtStrategyValidate
            rw [hv]
            simp [hu, hact]
          refine ⟨?_, ?_⟩
          · rw [hrun, hv]
            simp [Except.isOk, Except.toBool, hact]
          · intro e he
            rw [hrun] at he
            exact absurd he (by simp)
        · have hrun : authGuardCheck sec db now token
              = .error (.unauthorized "User not found or inactive") := by
            unfold authGuardCheck jwtStrategyValidate
            rw [hv]
            simp [hu, hact]
          refine ⟨?_, ?_⟩
          · rw [hrun, hv]
            simp [Except.isOk, Except.toBool]
            simpa using hact
          · intro e he
            rw [hrun] at he
            exact ⟨"User not found or inactive",
              (Except.error.injEq _ _).mp he.symm⟩
  · have hv : jwtVerify sec now token
        = .error (.tokenInvalid "jwt verification failed") := by
      unfold jwtVerify
      simp [hc]
    have hrun : authGuardCheck sec db now token
        = .error (.unauthorized "Unauthorized") := by
      unfold authGuardCheck
      rw [hv]
    refine ⟨?_, ?_⟩
    · rw [hrun, hv]
      simp [Except.isOk, Except.toBool]
    · intro e he
      rw [hrun] at he
      exact ⟨"Unauthorized", (Except.error.injEq _ _).mp he.symm⟩

/-- C4 witness: bob's access token is correctly signed and unexpired,
but bob has been deactivated, so the guard rejects the request. -/
theorem authGuard_spec_witness :
    (authGuardCheck "acc" dbBob 0 tokBob).isOk = false :=
  (authGuard_spec sampleCfg dbBob 0 tokBob "acc" rfl).1.mpr
    (Or.inr (Or.inr ⟨stripPassword bob, by decide, by decide⟩))

/-- C6 counterexample: configure the refresh lifetime to one hour
(`JWT_REFRESH_EXPIRATION=1h`); alice's login succeeds and the persisted
refresh-token record still expires seven days after issuance — not
issuance plus the configured one-hour lifetime. -/
theorem refresh_lifetime_counterexample :
    ((login cfgShort sampleDB 0 "a@x.com" "Password1A").toOption.map
        (fun x => x.2.refreshTokens.map (fun rec => rec.expiresAt))
      = some [sevenDays])
    ∧ sevenDays ≠ 0 + cfgShort.refreshExpiration := by
  constructor
  · rfl
  · decide

/-- C6 amended: for every successful `register`, `login` and
`refreshTokens` call, the refresh-token record persisted for the newly
issued refresh token has `expiresAt` equal to the time of issuance plus
a hard-coded seven-day lifetime (`storeRefreshToken`), independent of
the configured refresh lifetime. -/
theorem refresh_record_lifetime (cfg : JwtConfig) (db : DB) (now : Nat) :
    (∀ newId dto resp db',
        register cfg db now newId dto = .ok (resp, db') →
        ∃ rec, db'.refreshTokens.getLast? = some rec
          ∧ rec.token = resp.tokens.refreshToken
          ∧ rec.expiresAt = now + sevenDays)
    ∧ (∀ email password resp db',
        login cfg db now email password = .ok (resp, db') →
        ∃ rec, db'.refreshTokens.getLast? = some rec
          ∧ rec.token = resp.tokens.refreshToken
          ∧ rec.expiresAt = now + sevenDays)
    ∧ (∀ t pair db',
        refreshTokens cfg db now t = .ok (pair, db') →
        ∃ rec, db'.refreshTokens.getLast? = some rec
          ∧ rec.token = pair.refreshToken
          ∧ rec.expiresAt = now + sevenDays) := by
  refine ⟨?_, ?_, ?_⟩
  · intro newId dto resp db' h
    unfold register storeRefreshToken at h
    split at h
    · exact absurd h (by simp)
    · dsimp only at h
      split at h
      · exact absurd h (by simp)
      · simp only [Except.ok.injEq, Prod.mk.injEq] at h
        obtain ⟨hresp, hdb⟩ := h
        rw [← hdb, ← hresp]
        exact ⟨_, List.getLast?_concat _, rfl, rfl⟩
  · intro email password resp db' h
    unfold login storeRefreshToken at h
    split at h
    · exact absurd h (by simp)
    · split at h
      · exact absurd h (by simp)
      · split at h
        · exact absurd h (by simp)
        · split at h
          · exact absurd h (by simp)
          · simp only [Except.ok.injEq, Prod.mk.injEq] at h
            obtain ⟨hresp, hdb⟩ := h
            rw [← hdb, ← hresp]
            exact ⟨_, List.getLast?_concat _, rfl, rfl⟩
  · intro t pair db' h
    unfold refreshTokens at h
    cases hb : refreshTokensBody cfg db now t with
    | error e => rw [hb] at h; exact absurd h (by simp)
    | ok x =>
        rw [hb] at h
        simp only [Except.ok.injEq] at h
        rw [h] at hb
        unfold refreshTokensBody storeRefreshToken at hb
        split at hb
        · exact absurd hb (by simp)
        · split at hb
          · exact absurd hb (by simp)
          · split at hb
            · exact absurd hb (by simp)
            · split at hb
              · exact absurd hb (by simp)
              · split at hb
                · exact absurd hb (by simp)
                · split at hb
                  · exact absurd hb (by simp)
                  · simp only [Except.ok.injEq, Prod.mk.injEq] at hb
                    obtain ⟨hpair, hdb⟩ := hb
                    rw [← hdb, ← hpair]
                    exact ⟨_, List.getLast?_concat _, rfl, rfl⟩

/-- C6 amended witness: alice's login at time 0 under the default
configuration persists a record expiring at `sevenDays`. -/
theorem refresh_record_lifetime_witness :
    ∃ rec, (DB.mk [alice]
        [{ token := { payload := { sub := "u1", email := "a@x.com",
                                   username := "alice", role := Role.USER,
                                   iat := 0, exp := 604800 },
                      secret := "ref" },
           userId := "u1", expiresAt := 604800 }]).refreshTokens.getLast?
        = some rec
      ∧ rec.token =
          (AuthResponse.mk (stripPassword alice)
            (TokenPair.mk
              { payload := { sub := "u1", email := "a@x.com",
                             username := "alice", role := Role.USER,
                             iat := 0, exp := 900 },
                secret := "acc" }
              { payload := { sub := "u1", email := "a@x.com",
                             username := "alice", role := Role.USER,
                             iat := 0, exp := 604800 },
                secret := "ref" })).tokens.refreshToken
      ∧ rec.expiresAt = 0 + sevenDays :=
  (refresh_record_lifetime sampleCfg sampleDB 0).2.1 "a@x.com" "Password1A"
    (AuthResponse.mk (stripPassword alice)
      (TokenPair.mk
        { payload := { sub := "u1", email := "a@x.com", username := "alice",
                       role := Role.USER, iat := 0, exp := 900 },
          secret := "acc" }
        { payload := { sub := "u1", email := "a@x.com", username := "alice",
                       role := Role.USER, iat := 0, exp := 604800 },
          secret := "ref" }))
    (DB.mk [alice]
      [{ token := { payload := { sub := "u1", email := "a@x.com",
                                 username := "alice", role := Role.USER,
                                 iat := 0, exp := 604800 },
                    secret := "ref" },
         userId := "u1", expiresAt := 604800 }])
    (by rfl)

/-- C8 counterexample: with the access secret configured but the refresh
secret absent, the only start-time check — the `JwtStrategy` constructor —
succeeds, so the process starts; yet a request-time token issuance raises
the configuration-absence error to its caller. -/
theorem config_failfast_counterexample :
    (jwtStrategyInit cfgNoRefresh).isOk = true
    ∧ generateTokenPair cfgNoRefresh 0 "u1" "a@x.com" "alice" Role.USER
        = .error (.configError "JWT secrets must be configured") := by
  constructor
  · rfl
  · rfl

/-- C8 amended: absence of the ACCESS secret fails at process start (the
strategy constructor throws) and a configured access secret lets the
process start; absence of the REFRESH secret is not checked at start —
every request-time token issuance then raises the configuration error —
while with both secrets configured no issuance or verification call ever
surfaces a configuration-absence error. -/
theorem config_failfast (cfg : JwtConfig) :
    (cfg.accessSecret = none → (jwtStrategyInit cfg).isOk = false)
    ∧ (∀ sec, cfg.accessSecret = some sec → jwtStrategyInit cfg = .ok sec)
    ∧ (cfg.refreshSecret = none → ∀ now sub email username role,
        generateTokenPair cfg now sub email username role
          = .error (.configError "JWT secrets must be configured"))
    ∧ (cfg.accessSecret.isSome = true → cfg.refreshSecret.isSome = true →
        ∀ now sub email username role t,
          (generateTokenPair cfg now sub email username role).isOk = true
          ∧ (∀ m, verifyRefreshToken cfg now t ≠ .error (.configError m))
          ∧ (∀ m, verifyAccessToken cfg now t ≠ .error (.configError m))) := by
  refine ⟨?_, ?_, ?_, ?_⟩
  · intro hn
    unfold jwtStrategyInit
    rw [hn]
    rfl
  · intro sec hs
    unfold jwtStrategyInit
    rw [hs]
  · intro hn now sub email username role
    unfold generateTokenPair
    rw [hn]
    cases cfg.accessSecret <;> rfl
  · intro hA hR now sub email username role t
    obtain ⟨aSec, hA'⟩ := Option.isSome_iff_exists.mp hA
    obtain ⟨rSec, hR'⟩ := Option.isSome_iff_exists.mp hR
    refine ⟨?_, ?_, ?_⟩
    · unfold generateTokenPair
      rw [hA', hR']
      rfl
    · intro m hm
      unfold verifyRefreshToken jwtVerify at hm
      rw [hR'] at hm
      dsimp only at hm
      by_cases hc : (t.secret == rSec && decide (now < t.payload.exp)) = true
      · rw [if_pos hc] at hm
        exact absurd hm (by simp)
      · rw [if_neg hc] at hm
        exact absurd ((Except.error.injEq _ _).mp hm) (by simp)
    · intro m hm
      unfold verifyAccessToken jwtVerify at hm
      rw [hA'] at hm
      dsimp only at hm
      by_cases hc : (t.secret == aSec && decide (now < t.payload.exp)) = true
      · rw [if_pos hc] at hm
        exact absurd hm (by simp)
      · rw [if_neg hc] at hm
        exact absurd ((Except.error.injEq _ _).mp hm) (by simp)

/-- C8 amended witness: a configuration with no access secret is refused
at process start, and the fully configured sample issues tokens with no
configuration error. -/
theorem config_failfast_witness :
    (jwtStrategyInit cfgNone).isOk = false
    ∧ (generateTokenPair sampleCfg 0 "u1" "a@x.com" "alice"
        Role.USER).isOk = true :=
  ⟨(config_failfast cfgNone).1 rfl,
   ((config_failfast sampleCfg).2.2.2 rfl rfl 0 "u1" "a@x.com" "alice"
      Role.USER R1c).1⟩

/-- C1: single-use rotation.  For a refresh token R1 that verifies
against the refresh secret, whose record is persisted and unexpired,
whose owner is active, and which was issued strictly before `t₁` (as was
every token in the store — freshness), the first `refreshTokens(R1)`
call succeeds yielding a pair whose new refresh token R2 is persisted
while R1's record is deleted; every later `refreshTokens(R1)` call fails
with `Unauthorized`; and `refreshTokens(R2)` succeeds while R2 is within
both its own lifetime and its record's seven-day expiry. -/
theorem refreshTokens_rotation (cfg : JwtConfig) (db : DB) (t₁ : Nat)
    (R₁ : SignedToken) (aSec rSec : String) (r : RefreshTokenRecord)
    (u : User)
    (hA : cfg.accessSecret = some aSec)
    (hR : cfg.refreshSecret = some rSec)
    (hsec : R₁.secret = rSec)
    (hexp : t₁ < R₁.payload.exp)
    (hrec : findRefreshTokenRecord db R₁ = some r)
    (hnotpast : ¬ (r.expiresAt < t₁))
    (huser : findUserById db r.userId = some u)
    (hact : u.isActive = true)
    (hfresh : ∀ r' ∈ db.refreshTokens, r'.token.payload.iat < t₁) :
    ∃ pair db',
      refreshTokens cfg db t₁ R₁ = .ok (pair, db')
      ∧ pair.refreshToken ≠ R₁
      ∧ findRefreshTokenRecord db' pair.refreshToken
          = some { token := pair.refreshToken, userId := u.id,
                   expiresAt := t₁ + sevenDays }
      ∧ findRefreshTokenRecord db' R₁ = none
      ∧ (∀ t₂, refreshTokens cfg db' t₂ R₁
          = .error (.unauthorized "Invalid refresh token"))
      ∧ (∀ t₂, t₂ < t₁ + cfg.refreshExpiration → ¬ (t₁ + sevenDays < t₂) →
          (refreshTokens cfg db' t₂ pair.refreshToken).isOk = true) := by
  have hRtok : r.token = R₁ := by
    have := List.find?_some hrec
    exact beq_iff_eq.mp this
  have hRin : r ∈ db.refreshTokens := List.mem_of_find?_eq_some hrec
  have hiatR : R₁.payload.iat < t₁ := by
    rw [← hRtok]
    exact hfresh r hRin
  have huid : u.id = r.userId := by
    have := List.find?_some huser
    exact beq_iff_eq.mp this
  refine ⟨
    { accessToken :=
        { payload := { sub := u.id, email := u.email, username := u.username,
                       role := u.role, iat := t₁,
                       exp := t₁ + cfg.accessExpiration },
          secret := aSec },
      refreshToken :=
        { payload := { sub := u.id, email := u.email, username := u.username,
                       role := u.role, iat := t₁,
                       exp := t₁ + cfg.refreshExpiration },
          secret := rSec } },
    { users := db.users,
      refreshTokens :=
        db.refreshTokens.filter (fun x => !(x.token == R₁)) ++
          [{ token :=
               { payload := { sub := u.id, email := u.email,
                              username := u.username, role := u.role,
                              iat := t₁, exp := t₁ + cfg.refreshExpiration },
                 secret := rSec },
             userId := u.id, expiresAt := t₁ + sevenDays }] },
    ?_, ?_, ?_, ?_, ?_, ?_⟩
  case _ =>
    have hv : verifyRefreshToken cfg t₁ R₁ = .ok R₁.payload := by
      unfold verifyRefreshToken jwtVerify
      rw [hR]
      dsimp only
      rw [if_pos (by simp [hsec, hexp])]
    unfold refreshTokens refreshTokensBody storeRefreshToken
      generateTokenPair
    rw [hv, hrec]
    dsimp only
    rw [if_neg (by simpa using hnotpast)]
    rw [huser]
    dsimp only
    rw [if_neg (by simp [hact])]
    rw [hA, hR]
  case _ =>
    intro he
    have : R₁.payload.iat = t₁ := by
      rw [← he]
    exact absurd (this ▸ hiatR) (Nat.lt_irrefl t₁)
  case _ =>
    unfold findRefreshTokenRecord
    dsimp only
    rw [List.find?_append]
    have hleft : (db.refreshTokens.filter (fun x => !(x.token == R₁))).find?
        (fun x => x.token ==
          { payload := { sub := u.id, email := u.email,
                         username := u.username, role := u.role,
                         iat := t₁, exp := t₁ + cfg.refreshExpiration },
            secret := rSec }) = none := by
      rw [List.find?_eq_none]
      intro x hx
      have hxin : x ∈ db.refreshTokens := (List.mem_filter.mp hx).1
      have hxiat : x.token.payload.iat < t₁ := hfresh x hxin
      simp only [beq_iff_eq]
      intro hcon
      rw [hcon] at hxiat
      exact Nat.lt_irrefl t₁ hxiat
    rw [hleft]
    simp [List.find?]
  case _ =>
    unfold findRefreshTokenRecord
    dsimp only
    rw [List.find?_eq_none]
    intro x hx
    rcases List.mem_append.mp hx with hx₁ | hx₂
    · have := (List.mem_filter.mp hx₁).2
      simpa using this
    · have hxeq := List.mem_singleton.mp hx₂
      rw [hxeq]
      simp only [beq_iff_eq]
      intro hcon
      have : R₁.payload.iat = t₁ := by rw [← hcon]
      exact absurd (this ▸ hiatR) (Nat.lt_irrefl t₁)
  case _ =>
    intro t₂
    have hfind : findRefreshTokenRecord
        { users := db.users,
          refreshTokens :=
            db.refreshTokens.filter (fun x => !(x.token == R₁)) ++
              [{ token :=
                   { payload := { sub := u.id, email := u.email,
                                  username := u.username, role := u.role,
                                  iat := t₁,
                                  exp := t₁ + cfg.refreshExpiration },
                     secret := rSec },
                 userId := u.id, expiresAt := t₁ + sevenDays }] } R₁
        = none := by
      unfold findRefreshTokenRecord
      dsimp only
      rw [List.find?_eq_none]
      intro x hx
      rcases List.mem_append.mp hx with hx₁ | hx₂
      · have := (List.mem_filter.mp hx₁).2
        simpa using this
      · have hxeq := List.mem_singleton.mp hx₂
        rw [hxeq]
        simp only [beq_iff_eq]
        intro hcon
        have : R₁.payload.iat = t₁ := by rw [← hcon]
        exact absurd (this ▸ hiatR) (Nat.lt_irrefl t₁)
    unfold refreshTokens refreshTokensBody
    cases hv : verifyRefreshToken cfg t₂ R₁ with
    | error e => rfl
    | ok pl =>
        dsimp only
        rw [hfind]
  case _ =>
    intro t₂ ht₂a ht₂b
    have hv : verifyRefreshToken cfg t₂
        { payload := { sub := u.id, email := u.email,
                       username := u.username, role := u.role,
                       iat := t₁, exp := t₁ + cfg.refreshExpiration },
          secret := rSec }
        = .ok { sub := u.id, email := u.email, username := u.username,
                role := u.role, iat := t₁,
                exp := t₁ + cfg.refreshExpiration } := by
      unfold verifyRefreshToken jwtVerify
      rw [hR]
      dsimp only
      rw [if_pos (by simp [ht₂a])]
    have hfind : findRefreshTokenRecord
        { users := db.users,
          refreshTokens :=
            db.refreshTokens.filter (fun x => !(x.token == R₁)) ++
              [{ token :=
                   { payload := { sub := u.id, email := u.email,
                                  username := u.username, role := u.role,
                                  iat := t₁,
                                  exp := t₁ + cfg.refreshExpiration },
                     secret := rSec },
                 userId := u.id, expiresAt := t₁ + sevenDays }] }
        { payload := { sub := u.id, email := u.email,
                       username := u.username, role := u.role,
                       iat := t₁, exp := t₁ + cfg.refreshExpiration },
          secret := rSec }
        = some { token :=
                   { payload := { sub := u.id, email := u.email,
                                  username := u.username, role := u.role,
                                  iat := t₁,
                                  exp := t₁ + cfg.refreshExpiration },
                     secret := rSec },
                 userId := u.id, expiresAt := t₁ + sevenDays } := by
      unfold findRefreshTokenRecord
      dsimp only
      rw [List.find?_append]
      have hleft : (db.refreshTokens.filter (fun x => !(x.token == R₁))).find?
          (fun x => x.token ==
            { payload := { sub := u.id, email := u.email,
                           username := u.username, role := u.role,
                           iat := t₁, exp := t₁ + cfg.refreshExpiration },
              secret := rSec }) = none := by
        rw [List.find?_eq_none]
        intro x hx
        have hxin : x ∈ db.refreshTokens := (List.mem_filter.mp hx).1
        have hxiat : x.token.payload.iat < t₁ := hfresh x hxin
        simp only [beq_iff_eq]
        intro hcon
        rw [hcon] at hxiat
        exact Nat.lt_irrefl t₁ hxiat
      rw [hleft]
      simp [List.find?]
    have huser' : findUserById
        { users := db.users,
          refreshTokens :=
            db.refreshTokens.filter (fun x => !(x.token == R₁)) ++
              [{ token :=
                   { payload := { sub := u.id, email := u.email,
                                  username := u.username, role := u.role,
                                  iat := t₁,
                                  exp := t₁ + cfg.refreshExpiration },
                     secret := rSec },
                 userId := u.id, expiresAt := t₁ + sevenDays }] } u.id
        = some u := by
      unfold findUserById
      dsimp only
      rw [huid]
      exact huser
    unfold refreshTokens refreshTokensBody storeRefreshToken
      generateTokenPair
    rw [hv, hfind]
    dsimp only
    rw [if_neg (by simpa using ht₂b)]
    rw [huser']
    dsimp only
    rw [if_neg (by simp [hact])]
    rw [hA, hR]
    rfl

/-- C1 witness: the rotation scenario on the concrete store: alice's
token `R1c` (issued at 50) is rotated at time 100; the new pair's
refresh token replaces `R1c`'s record, every later reuse of `R1c` fails
uniformly, and the new token itself refreshes successfully at time 200. -/
theorem refreshTokens_rotation_witness :
    ∃ pair db',
      refreshTokens sampleCfg dbRot 100 R1c = .ok (pair, db')
      ∧ pair.refreshToken ≠ R1c
      ∧ findRefreshTokenRecord db' pair.refreshToken
          = some { token := pair.refreshToken, userId := alice.id,
                   expiresAt := 100 + sevenDays }
      ∧ findRefreshTokenRecord db' R1c = none
      ∧ (∀ t₂, refreshTokens sampleCfg db' t₂ R1c
          = .error (.unauthorized "Invalid refresh token"))
      ∧ (∀ t₂, t₂ < 100 + sampleCfg.refreshExpiration →
          ¬ (100 + sevenDays < t₂) →
          (refreshTokens sampleCfg db' t₂ pair.refreshToken).isOk = true) :=
  refreshTokens_rotation sampleCfg dbRot 100 R1c "acc" "ref" rotRec alice
    rfl rfl rfl (by decide) (by decide) (by decide) (by decide) (by decide)
    (by decide)

end NestAuth
